import Mathlib

/-
Verification of the health-check scheduling and broadcast core of the
URL-Server-Monitor repository, against its natural-language specification.

The embedding below translates the relevant source functions:
  - frontend/src/services (WebSocketService): subscribe, the returned
    unsubscribe closure, and notifyListeners;
  - frontend/src/components/URLTable.js: getHealthStatus and the
    error path of handleToggleHealthCheck;
  - frontend/src/components/HealthTimeline.js: the uptime rendering;
  - frontend/src/App.js: handleWebSocketMessage (the health_update cache
    upsert);
  - the backend scheduler and result store are not part of this source
    tree; where a claim is about them they are modelled from the spec
    (see the doc comments on those definitions).
-/

/- ===================== WebSocketService ===================== -/

/-- A message payload carried over the socket channel (opaque to the
broadcaster). -/
abbrev Msg := String

/-- A callback registered with the WebSocketService; JavaScript compares
callbacks by reference, which we model as an identifier. -/
abbrev CallbackId := Nat

/-- Outcome of invoking one listener callback inside notifyListeners:
either the callback returned normally (the message was delivered) or it
threw and the error was caught and logged. -/
inductive CallOutcome where
  | delivered
  | errorLogged
deriving DecidableEq, Repr

/-- The behavior environment: what each callback does with a message
(returns normally, or throws an exception carried as a string). -/
abbrev CallbackEnv := CallbackId → Msg → Except String Unit

/-- The try/catch block around one callback invocation in
WebSocketService.notifyListeners: a thrown error is caught and logged,
never rethrown, so the result is always on the ok branch. -/
def tryInvoke (env : CallbackEnv) (callback : CallbackId) (data : Msg) :
    Except String CallOutcome :=
  match env callback data with
  | Except.ok _ => Except.ok CallOutcome.delivered
  | Except.error _ => Except.ok CallOutcome.errorLogged

/-- The forEach loop of WebSocketService.notifyListeners, written in the
exception monad: each listener is invoked in order, and an uncaught
exception would abort the remaining invocations and propagate (tryInvoke
is what prevents that). Returns the log of per-listener outcomes. -/
def forEachInvoke (env : CallbackEnv) (data : Msg) :
    List CallbackId → Except String (List (CallbackId × CallOutcome))
  | [] => Except.ok []
  | callback :: rest =>
    match tryInvoke env callback data with
    | Except.ok outcome =>
      match forEachInvoke env data rest with
      | Except.ok log => Except.ok ((callback, outcome) :: log)
      | Except.error e => Except.error e
    | Except.error e => Except.error e

/-- WebSocketService.notifyListeners: iterate over the current listener
list, invoking each callback on the message with a per-callback
try/catch. -/
def notifyListeners (env : CallbackEnv) (listeners : List CallbackId)
    (data : Msg) : Except String (List (CallbackId × CallOutcome)) :=
  forEachInvoke env data listeners

/-- WebSocketService.subscribe: push the callback onto the listener
list. -/
def subscribe (listeners : List CallbackId) (callback : CallbackId) :
    List CallbackId :=
  listeners ++ [callback]

/-- The unsubscribe closure returned by WebSocketService.subscribe:
replace the listener list with its filter keeping only listeners that are
not (reference-)equal to the captured callback. -/
def unsubscribeOf (callback : CallbackId) (listeners : List CallbackId) :
    List CallbackId :=
  listeners.filter (fun listener => listener != callback)

/- ===================== URLTable.js ===================== -/

/-- One entry of the health-status cache held in App.js state and passed
to URLTable: the six data fields of a health_update message. Field
access on a JavaScript object may yield undefined, modelled by Option;
field values are opaque payloads modelled as strings. -/
structure CacheEntry where
  url_id : Option String
  status : Option String
  response_time : Option String
  status_code : Option String
  checked_at : Option String
  error_message : Option String
deriving DecidableEq, Repr

/-- URLTable.getHealthStatus: find the health entry whose url_id matches
the given url id; the expression health?.status or-else "offline" yields
"offline" when no entry exists, when the entry has no status field, or
when the status is the empty (falsy) string. -/
def getHealthStatus (healthStatuses : List CacheEntry) (urlId : String) :
    String :=
  match healthStatuses.find? (fun h => h.url_id == some urlId) with
  | some health =>
    match health.status with
    | some s => if s != "" then s else "offline"
    | none => "offline"
  | none => "offline"

/-- JavaScript boolean negation applied to a possibly-undefined value:
not undefined is true, not false is true, not true is false. -/
def jsNot (v : Option Bool) : Bool :=
  match v with
  | some b => !b
  | none => true

/-- The state update produced by a spread of the previous toggle map with
one key overridden, as in setToggleStates of URLTable.js. -/
def updateKey (prev : Nat → Option Bool) (urlId : Nat) (v : Option Bool) :
    Nat → Option Bool :=
  fun k => if k = urlId then v else prev k

/-- The optimistic update at the start of handleToggleHealthCheck: set
the toggled url to the negation of the currentStatus argument. -/
def optimisticToggle (prev : Nat → Option Bool) (urlId : Nat)
    (currentStatus : Option Bool) : Nat → Option Bool :=
  updateKey prev urlId (some (jsNot currentStatus))

/-- The catch branch of handleToggleHealthCheck: revert the toggled url
back to the currentStatus argument. -/
def revertToggle (prev : Nat → Option Bool) (urlId : Nat)
    (currentStatus : Option Bool) : Nat → Option Bool :=
  updateKey prev urlId currentStatus

/-- The toggle state reached when the PATCH request fails: the optimistic
update followed by the revert in the catch branch. -/
def toggleFailurePath (toggleStates : Nat → Option Bool) (urlId : Nat)
    (currentStatus : Option Bool) : Nat → Option Bool :=
  revertToggle (optimisticToggle toggleStates urlId currentStatus) urlId
    currentStatus

/- ===================== helper lemmas ===================== -/

theorem tryInvoke_eq_ok (env : CallbackEnv) (callback : CallbackId)
    (data : Msg) :
    tryInvoke env callback data =
      Except.ok (match env callback data with
        | Except.ok _ => CallOutcome.delivered
        | Except.error _ => CallOutcome.errorLogged) := by
  unfold tryInvoke
  cases env callback data <;> rfl

/-- The per-listener try/catch makes the notify loop total: it always
returns the full log of outcomes, one per listener in order. -/
theorem notifyListeners_eq_ok (env : CallbackEnv)
    (listeners : List CallbackId) (data : Msg) :
    notifyListeners env listeners data =
      Except.ok (listeners.map (fun callback =>
        (callback, match env callback data with
          | Except.ok _ => CallOutcome.delivered
          | Except.error _ => CallOutcome.errorLogged))) := by
  unfold notifyListeners
  induction listeners with
  | nil => rfl
  | cons callback rest ih =>
    unfold forEachInvoke
    rw [tryInvoke_eq_ok, ih]
    simp

/- ===================== claim theorems ===================== -/

/-- C4: delivery to subscribers is isolated. For every listener list and
message, if one subscriber callback throws, the message is still
delivered to every subscriber whose own callback succeeds, and no
failure propagates out of notifyListeners (the call always returns an
ok log). -/
theorem C4_notify_isolates_subscriber_failures (env : CallbackEnv)
    (listeners : List CallbackId) (data : Msg) (cb : CallbackId)
    (hmem : cb ∈ listeners) (hok : env cb data = Except.ok ()) :
    ∃ log, notifyListeners env listeners data = Except.ok log ∧
      (cb, CallOutcome.delivered) ∈ log := by
  refine ⟨_, notifyListeners_eq_ok env listeners data, ?_⟩
  refine List.mem_map.mpr ⟨cb, hmem, ?_⟩
  rw [hok]

/-- C4 witness: with listener 0 always throwing and listener 1
succeeding, notifying still delivers to listener 1 and the call returns
normally. -/
theorem C4_witness :
    ∃ log,
      notifyListeners
        (fun cb _ => if cb = 0 then Except.error "boom" else Except.ok ())
        [0, 1] "m" = Except.ok log ∧
      (1, CallOutcome.delivered) ∈ log :=
  C4_notify_isolates_subscriber_failures
    (fun cb _ => if cb = 0 then Except.error "boom" else Except.ok ())
    [0, 1] "m" 1 (by decide) rfl

/-- C5: the unsubscribe closure returned by subscribe removes the
subscriber. For a callback not already subscribed, subscribe followed by
its own unsubscribe restores the listener list exactly, and any notify
run on the resulting list never invokes that callback. -/
theorem C5_subscribe_unsubscribe_roundtrip (listeners : List CallbackId)
    (callback : CallbackId) (hnew : callback ∉ listeners) :
    unsubscribeOf callback (subscribe listeners callback) = listeners ∧
    ∀ env data log,
      notifyListeners env
        (unsubscribeOf callback (subscribe listeners callback)) data =
        Except.ok log →
      ∀ entry ∈ log, entry.1 ≠ callback := by
  have hroundtrip :
      unsubscribeOf callback (subscribe listeners callback) = listeners := by
    unfold unsubscribeOf subscribe
    rw [List.filter_append]
    have h1 : listeners.filter (fun listener => listener != callback) =
        listeners :=
      List.filter_eq_self.mpr (fun a ha => by
        simp only [bne_iff_ne, ne_eq]
        exact fun hcontra => hnew (hcontra ▸ ha))
    have h2 : List.filter (fun listener => listener != callback) [callback] =
        [] := by simp
    rw [h1, h2, List.append_nil]
  refine ⟨hroundtrip, ?_⟩
  intro env data log hlog entry hentry
  rw [hroundtrip, notifyListeners_eq_ok] at hlog
  cases hlog
  obtain ⟨cb, hcb, rfl⟩ := List.mem_map.mp hentry
  exact fun hcontra => hnew (hcontra ▸ hcb)

/-- C5 witness: subscribing callback 9 to the list containing 4 and 6 and
then unsubscribing it restores the list, and a notify on the restored
list logs no invocation of callback 9. -/
theorem C5_witness :
    unsubscribeOf 9 (subscribe [4, 6] 9) = [4, 6] ∧
    ((4 : CallbackId), CallOutcome.delivered).1 ≠ 9 :=
  ⟨(C5_subscribe_unsubscribe_roundtrip [4, 6] 9 (by decide)).1,
    (C5_subscribe_unsubscribe_roundtrip [4, 6] 9 (by decide)).2
      (fun _ _ => Except.ok ()) "m"
      [(4, CallOutcome.delivered), (6, CallOutcome.delivered)]
      rfl (4, CallOutcome.delivered) (by decide)⟩

/-- C10: the unsubscribe closure removes every occurrence of the captured
callback from the listener list (filter removes all of them, however
many times it was subscribed), after which a notify run never invokes
that callback. -/
theorem C10_unsubscribe_removes_all_occurrences
    (listeners : List CallbackId) (callback : CallbackId) :
    List.count callback (unsubscribeOf callback listeners) = 0 ∧
    ∀ env data log,
      notifyListeners env (unsubscribeOf callback listeners) data =
        Except.ok log →
      ∀ entry ∈ log, entry.1 ≠ callback := by
  have hnotmem : callback ∉ unsubscribeOf callback listeners := by
    unfold unsubscribeOf
    intro hmem
    have := List.of_mem_filter hmem
    simp at this
  refine ⟨List.count_eq_zero.mpr hnotmem, ?_⟩
  intro env data log hlog entry hentry
  rw [notifyListeners_eq_ok] at hlog
  cases hlog
  obtain ⟨cb, hcb, rfl⟩ := List.mem_map.mp hentry
  exact fun hcontra => hnotmem (hcontra ▸ hcb)

/-- C10 witness: unsubscribing callback 7 from a list holding it three
times leaves zero occurrences, and a notify on the remaining list does
not invoke callback 7. -/
theorem C10_witness :
    List.count 7 (unsubscribeOf 7 [7, 3, 7, 7]) = 0 ∧
    ((3 : CallbackId), CallOutcome.delivered).1 ≠ 7 :=
  ⟨(C10_unsubscribe_removes_all_occurrences [7, 3, 7, 7] 7).1,
    (C10_unsubscribe_removes_all_occurrences [7, 3, 7, 7] 7).2
      (fun _ _ => Except.ok ()) "m" [(3, CallOutcome.delivered)] rfl
      (3, CallOutcome.delivered) (by decide)⟩

/-- C2 counterexample: for a target with zero stored results the code
returns "offline", not "unknown" as the claim states. -/
theorem C2_counterexample : getHealthStatus [] "0" ≠ "unknown" := by decide

/-- C2 (amended): for every target with zero matching cache entries,
getHealthStatus returns "offline" (not "unknown"); for a target whose
cache entry is found with a non-empty status, it returns that status. -/
theorem C2_unknown_status_amended (healthStatuses : List CacheEntry)
    (urlId : String) :
    (healthStatuses.find? (fun h => h.url_id == some urlId) = none →
      getHealthStatus healthStatuses urlId = "offline") ∧
    (∀ health,
      healthStatuses.find? (fun h => h.url_id == some urlId) = some health →
      ∀ s, health.status = some s → s ≠ "" →
        getHealthStatus healthStatuses urlId = s) := by
  constructor
  · intro hnone
    unfold getHealthStatus
    rw [hnone]
  · intro health hfound s hs hne
    simp [getHealthStatus, hfound, hs, hne]

/-- C2 witness: the empty cache yields "offline", and a cache entry with
status "online" for the queried id yields "online". -/
theorem C2_witness :
    getHealthStatus [] "0" = "offline" ∧
    getHealthStatus [⟨some "5", some "online", none, none, none, none⟩] "5" =
      "online" :=
  ⟨(C2_unknown_status_amended [] "0").1 rfl,
    (C2_unknown_status_amended
        [⟨some "5", some "online", none, none, none, none⟩] "5").2
      ⟨some "5", some "online", none, none, none, none⟩ rfl "online" rfl
      (by decide)⟩

/-- C9: the failed-PATCH path of handleToggleHealthCheck is atomic for
the visible toggle state. Keys other than the toggled url are never
modified (neither by the optimistic update nor after the revert), and
when the currentStatus argument is the toggle state held for that url
before the call, the state after the revert equals the state before at
every key. -/
theorem C9_toggle_reverts_on_error (toggleStates : Nat → Option Bool)
    (urlId : Nat) (currentStatus : Option Bool) (k : Nat) :
    (k ≠ urlId →
      optimisticToggle toggleStates urlId currentStatus k = toggleStates k ∧
      toggleFailurePath toggleStates urlId currentStatus k = toggleStates k) ∧
    (toggleStates urlId = currentStatus →
      toggleFailurePath toggleStates urlId currentStatus k = toggleStates k) := by
  constructor
  · intro hk
    unfold toggleFailurePath revertToggle optimisticToggle updateKey
    simp [hk]
  · intro hcur
    unfold toggleFailurePath revertToggle optimisticToggle updateKey
    by_cases hk : k = urlId
    · subst hk
      simp [hcur]
    · simp [hk]

/-- C9 witness: with url 1 toggled on, a failed PATCH leaves url 1 on and
url 2 untouched. -/
theorem C9_witness :
    toggleFailurePath (fun n => if n = 1 then some true else none) 1
      (some true) 2 = none ∧
    toggleFailurePath (fun n => if n = 1 then some true else none) 1
      (some true) 1 = some true :=
  ⟨((C9_toggle_reverts_on_error (fun n => if n = 1 then some true else none)
      1 (some true) 2).1 (by decide)).2,
    (C9_toggle_reverts_on_error (fun n => if n = 1 then some true else none)
      1 (some true) 1).2 rfl⟩

/- ===================== HealthTimeline.js ===================== -/

/-- One health-history record as consumed by HealthTimeline.js. -/
structure HistoryCheck where
  status : String
  checked_at : Nat
deriving DecidableEq, Repr

/-- What HealthTimeline renders: the loading placeholder, the literal
"No data" placeholder, or the timeline with its uptime percentage and
the online/total counts. -/
inductive TimelineView where
  | loading
  | noData
  | timeline (uptimePercentage : Int) (onlineCount : Nat) (totalCount : Nat)
deriving DecidableEq, Repr

/-- JavaScript Math.round on the exact value: round half toward positive
infinity, i.e. the floor of x + 1/2. -/
def jsMathRound (x : ℚ) : Int := Int.floor (x + 1/2)

/-- The render path of HealthTimeline.js: loading guard, empty-history
guard returning "No data", then onlineCount, totalCount and the guarded
uptime percentage. -/
def renderHealthTimeline (loading : Bool) (history : List HistoryCheck) :
    TimelineView :=
  if loading then TimelineView.loading
  else if history.length = 0 then TimelineView.noData
  else
    let onlineCount := (history.filter (fun h => h.status == "online")).length
    let totalCount := history.length
    let uptimePercentage :=
      if totalCount > 0 then
        jsMathRound ((onlineCount : ℚ) / (totalCount : ℚ) * 100)
      else 0
    TimelineView.timeline uptimePercentage onlineCount totalCount

/- ===================== App.js handleWebSocketMessage ===================== -/

/-- The object literal built in both branches of handleWebSocketMessage:
the six data fields of a health_update message read into a cache
entry. -/
def entryOfMessageData (data : String → Option String) : CacheEntry :=
  { url_id := data "url_id"
    status := data "status"
    response_time := data "response_time"
    status_code := data "status_code"
    checked_at := data "checked_at"
    error_message := data "error_message" }

/-- The cache update of handleWebSocketMessage: findIndex on url_id
against the message url_id; when found, assign the rebuilt entry at that
index, otherwise push it at the end. -/
def handleHealthUpdate (healthStatuses : List CacheEntry)
    (data : String → Option String) : List CacheEntry :=
  match healthStatuses.findIdx? (fun h => h.url_id == data "url_id") with
  | some index => healthStatuses.set index (entryOfMessageData data)
  | none => healthStatuses ++ [entryOfMessageData data]

/-- App.js handleWebSocketMessage: only messages whose type is
health_update touch the health-status cache. -/
def handleWebSocketMessage (healthStatuses : List CacheEntry)
    (msgType : String) (data : String → Option String) : List CacheEntry :=
  if msgType == "health_update" then handleHealthUpdate healthStatuses data
  else healthStatuses

/- ===================== upsert helper lemmas ===================== -/

theorem handleHealthUpdate_nil (data : String → Option String) :
    handleHealthUpdate [] data = [entryOfMessageData data] := rfl

theorem handleHealthUpdate_cons_hit (x : CacheEntry) (xs : List CacheEntry)
    (data : String → Option String) (hx : x.url_id = data "url_id") :
    handleHealthUpdate (x :: xs) data = entryOfMessageData data :: xs := by
  unfold handleHealthUpdate
  rw [List.findIdx?_cons]
  simp [hx]

theorem handleHealthUpdate_cons_miss (x : CacheEntry) (xs : List CacheEntry)
    (data : String → Option String) (hx : x.url_id ≠ data "url_id") :
    handleHealthUpdate (x :: xs) data = x :: handleHealthUpdate xs data := by
  unfold handleHealthUpdate
  rw [List.findIdx?_cons]
  have hbeq : (x.url_id == data "url_id") = false := by
    simpa using hx
  rw [hbeq, if_neg (by simp), List.findIdx?_succ]
  cases h : List.findIdx? (fun h => h.url_id == data "url_id") xs with
  | none => simp
  | some i => simp

theorem handleHealthUpdate_no_match (healthStatuses : List CacheEntry)
    (data : String → Option String)
    (h : ∀ x ∈ healthStatuses, x.url_id ≠ data "url_id") :
    handleHealthUpdate healthStatuses data =
      healthStatuses ++ [entryOfMessageData data] := by
  induction healthStatuses with
  | nil => rfl
  | cons x xs ih =>
    rw [handleHealthUpdate_cons_miss x xs data (h x (by simp)),
      ih (fun y hy => h y (by simp [hy]))]
    rfl

theorem handleHealthUpdate_first_match (healthStatuses : List CacheEntry)
    (data : String → Option String)
    (h : ∃ x ∈ healthStatuses, x.url_id = data "url_id") :
    ∃ i h0, healthStatuses[i]? = some h0 ∧ h0.url_id = data "url_id" ∧
      handleHealthUpdate healthStatuses data =
        healthStatuses.set i (entryOfMessageData data) := by
  induction healthStatuses with
  | nil => simp at h
  | cons x xs ih =>
    by_cases hx : x.url_id = data "url_id"
    · exact ⟨0, x, by simp, hx, handleHealthUpdate_cons_hit x xs data hx⟩
    · have hxs : ∃ y ∈ xs, y.url_id = data "url_id" := by
        obtain ⟨y, hy, hy2⟩ := h
        rcases List.mem_cons.mp hy with h1 | h2
        · exact absurd (h1 ▸ hy2) hx
        · exact ⟨y, h2, hy2⟩
      obtain ⟨i, h0, hget, hid, heq⟩ := ih hxs
      refine ⟨i + 1, h0, by simpa using hget, hid, ?_⟩
      rw [handleHealthUpdate_cons_miss x xs data hx, heq]
      rfl

theorem handleHealthUpdate_countP_key (healthStatuses : List CacheEntry)
    (data : String → Option String) :
    (handleHealthUpdate healthStatuses data).countP
        (fun h => h.url_id == data "url_id") =
      if healthStatuses.any (fun h => h.url_id == data "url_id") then
        healthStatuses.countP (fun h => h.url_id == data "url_id")
      else 1 := by
  induction healthStatuses with
  | nil =>
    rw [handleHealthUpdate_nil]
    simp [List.countP_cons, entryOfMessageData]
  | cons x xs ih =>
    by_cases hx : x.url_id = data "url_id"
    · rw [handleHealthUpdate_cons_hit x xs data hx]
      have hb : (x.url_id == data "url_id") = true := by simpa using hx
      have hb2 : ((entryOfMessageData data).url_id == data "url_id") = true := by
        simp [entryOfMessageData]
      simp [List.countP_cons, List.any_cons, hb, hb2]
    · rw [handleHealthUpdate_cons_miss x xs data hx]
      have hb : (x.url_id == data "url_id") = false := by simpa using hx
      simp [List.countP_cons, List.any_cons, hb, ih]

theorem handleHealthUpdate_countP_other (healthStatuses : List CacheEntry)
    (data : String → Option String) (u : Option String)
    (hu : u ≠ data "url_id") :
    (handleHealthUpdate healthStatuses data).countP
        (fun h => h.url_id == u) =
      healthStatuses.countP (fun h => h.url_id == u) := by
  have hentry : ((entryOfMessageData data).url_id == u) = false := by
    simp only [entryOfMessageData]
    simpa using fun hcontra => hu hcontra.symm
  induction healthStatuses with
  | nil =>
    rw [handleHealthUpdate_nil]
    simp [List.countP_cons, hentry]
  | cons x xs ih =>
    by_cases hx : x.url_id = data "url_id"
    · rw [handleHealthUpdate_cons_hit x xs data hx]
      have hxu : (x.url_id == u) = false := by
        rw [hx]
        simpa using fun hcontra => hu hcontra.symm
      simp [List.countP_cons, hentry, hxu]
    · rw [handleHealthUpdate_cons_miss x xs data hx]
      simp [List.countP_cons, ih]

theorem handleHealthUpdate_filter_other (healthStatuses : List CacheEntry)
    (data : String → Option String) :
    (handleHealthUpdate healthStatuses data).filter
        (fun h => h.url_id != data "url_id") =
      healthStatuses.filter (fun h => h.url_id != data "url_id") := by
  have hentry : ((entryOfMessageData data).url_id != data "url_id") = false := by
    simp [entryOfMessageData]
  induction healthStatuses with
  | nil =>
    rw [handleHealthUpdate_nil]
    simp [List.filter_cons, hentry]
  | cons x xs ih =>
    by_cases hx : x.url_id = data "url_id"
    · rw [handleHealthUpdate_cons_hit x xs data hx]
      have hxk : (x.url_id != data "url_id") = false := by simpa using hx
      simp [List.filter_cons, hentry, hxk]
    · rw [handleHealthUpdate_cons_miss x xs data hx]
      simp [List.filter_cons, ih]

/-- C3: the uptime display shows the ratio of onlineCount over
totalCount only when totalCount is positive, and renders the "No data"
placeholder exactly when the history window holds zero results; a zero
denominator never yields a numeric ratio. -/
theorem C3_uptime_ratio_or_no_data (history : List HistoryCheck) :
    (renderHealthTimeline false history = TimelineView.noData ↔
      history.length = 0) ∧
    (0 < history.length →
      renderHealthTimeline false history =
        TimelineView.timeline
          (jsMathRound
            (((history.filter (fun h => h.status == "online")).length : ℚ) /
              (history.length : ℚ) * 100))
          (history.filter (fun h => h.status == "online")).length
          history.length) := by
  by_cases hlen : history.length = 0
  · constructor
    · simp [renderHealthTimeline, hlen]
    · intro hpos
      omega
  · have hpos : 0 < history.length := Nat.pos_of_ne_zero hlen
    constructor
    · simp [renderHealthTimeline, hlen]
    · intro _
      simp [renderHealthTimeline, hlen, hpos]

/-- C3 witness: one online and one offline check render as 50 percent
uptime with counts 1 of 2. -/
theorem C3_witness :
    renderHealthTimeline false [⟨"online", 0⟩, ⟨"offline", 1⟩] =
      TimelineView.timeline 50 1 2 := by
  have h := (C3_uptime_ratio_or_no_data [⟨"online", 0⟩, ⟨"offline", 1⟩]).2
    (by decide)
  have hfilter : List.filter (fun h => h.status == "online")
      [(⟨"online", 0⟩ : HistoryCheck), ⟨"offline", 1⟩] = [⟨"online", 0⟩] := by
    decide
  rw [h, hfilter]
  simp only [List.length_cons, List.length_nil]
  norm_num [jsMathRound]

/-- C1 counterexample: two health_update messages that agree on the
target_id field and on the five non-identifying fields still produce
different cache updates, because the handler keys on url_id; hence the
data field identifying the monitored target is not named target_id. -/
theorem C1_counterexample :
    (∀ k ∈ ["target_id", "status", "response_time", "status_code",
        "checked_at", "error_message"],
      (fun k => if k == "target_id" then some "7"
        else if k == "url_id" then some "1" else none) k =
      (fun k => if k == "target_id" then some "7"
        else if k == "url_id" then some "2" else none) k) ∧
    handleWebSocketMessage [] "health_update"
        (fun k => if k == "target_id" then some "7"
          else if k == "url_id" then some "1" else none) ≠
      handleWebSocketMessage [] "health_update"
        (fun k => if k == "target_id" then some "7"
          else if k == "url_id" then some "2" else none) := by
  decide

/-- C1 (amended): the data payload field identifying the monitored
target in a health_update message consumed by the client handler is
named url_id, not target_id; the cache update depends only on the six
data fields url_id, status, response_time, status_code, checked_at and
error_message. -/
theorem C1_handler_keys_on_url_id (d1 d2 : String → Option String)
    (hagree : ∀ k ∈ ["url_id", "status", "response_time", "status_code",
        "checked_at", "error_message"], d1 k = d2 k)
    (healthStatuses : List CacheEntry) :
    handleWebSocketMessage healthStatuses "health_update" d1 =
      handleWebSocketMessage healthStatuses "health_update" d2 := by
  have hurl : d1 "url_id" = d2 "url_id" := hagree _ (by simp)
  have hstatus : d1 "status" = d2 "status" := hagree _ (by simp)
  have hrt : d1 "response_time" = d2 "response_time" := hagree _ (by simp)
  have hsc : d1 "status_code" = d2 "status_code" := hagree _ (by simp)
  have hca : d1 "checked_at" = d2 "checked_at" := hagree _ (by simp)
  have hem : d1 "error_message" = d2 "error_message" := hagree _ (by simp)
  have hentry : entryOfMessageData d1 = entryOfMessageData d2 := by
    simp [entryOfMessageData, hurl, hstatus, hrt, hsc, hca, hem]
  have hmsg : ∀ d : String → Option String,
      handleWebSocketMessage healthStatuses "health_update" d =
        handleHealthUpdate healthStatuses d := fun d => by
    simp [handleWebSocketMessage]
  rw [hmsg, hmsg]
  unfold handleHealthUpdate
  rw [hurl, hentry]

/-- C1 witness: two messages agreeing on the six handled fields but
differing on target_id produce the same cache update. -/
theorem C1_witness :
    handleWebSocketMessage [] "health_update" (fun k => some k) =
      handleWebSocketMessage [] "health_update"
        (fun k => if k == "target_id" then none else some k) :=
  C1_handler_keys_on_url_id (fun k => some k)
    (fun k => if k == "target_id" then none else some k) (by decide) []

/-- C8: the cache update of handleWebSocketMessage is an upsert keyed by
url_id. When an entry with the message url_id exists, the first such
entry is overwritten in place and the length is unchanged; otherwise
exactly one entry is appended at the end; the at-most-one-entry-per-id
invariant is preserved; and the entries whose url_id differs from the
message are unchanged. -/
theorem C8_upsert_keyed_by_url_id (healthStatuses : List CacheEntry)
    (data : String → Option String) :
    ((∃ x ∈ healthStatuses, x.url_id = data "url_id") →
      (handleHealthUpdate healthStatuses data).length =
        healthStatuses.length ∧
      ∃ i h0, healthStatuses[i]? = some h0 ∧ h0.url_id = data "url_id" ∧
        handleHealthUpdate healthStatuses data =
          healthStatuses.set i (entryOfMessageData data)) ∧
    ((∀ x ∈ healthStatuses, x.url_id ≠ data "url_id") →
      handleHealthUpdate healthStatuses data =
        healthStatuses ++ [entryOfMessageData data]) ∧
    ((∀ u, healthStatuses.countP (fun h => h.url_id == u) ≤ 1) →
      ∀ u, (handleHealthUpdate healthStatuses data).countP
        (fun h => h.url_id == u) ≤ 1) ∧
    (handleHealthUpdate healthStatuses data).filter
        (fun h => h.url_id != data "url_id") =
      healthStatuses.filter (fun h => h.url_id != data "url_id") := by
  refine ⟨?_, handleHealthUpdate_no_match healthStatuses data, ?_,
    handleHealthUpdate_filter_other healthStatuses data⟩
  · intro h
    obtain ⟨i, h0, hget, hid, heq⟩ :=
      handleHealthUpdate_first_match healthStatuses data h
    exact ⟨by rw [heq, List.length_set], i, h0, hget, hid, heq⟩
  · intro huniq u
    by_cases hu : u = data "url_id"
    · subst hu
      rw [handleHealthUpdate_countP_key]
      split
      · exact huniq _
      · exact le_refl 1
    · rw [handleHealthUpdate_countP_other healthStatuses data u hu]
      exact huniq u

/-- C8 witness: updating a one-entry cache for the same url keeps the
length at one, and updating the empty cache appends the single new
entry. -/
theorem C8_witness :
    (handleHealthUpdate [⟨some "1", some "offline", none, none, none, none⟩]
      (fun k => if k == "url_id" then some "1" else none)).length = 1 ∧
    handleHealthUpdate []
        (fun k => if k == "url_id" then some "1" else none) =
      [] ++ [entryOfMessageData
        (fun k => if k == "url_id" then some "1" else none)] :=
  ⟨((C8_upsert_keyed_by_url_id
      [⟨some "1", some "offline", none, none, none, none⟩]
      (fun k => if k == "url_id" then some "1" else none)).1
      (by decide)).1,
    (C8_upsert_keyed_by_url_id []
      (fun k => if k == "url_id" then some "1" else none)).2.1
      (by simp)⟩

/- ===================== scheduler core (spec-modelled) ===================== -/

/-- Modelled from the spec: the backend Scheduler of section 4.2 is not
part of this source tree (only its frontend consumers are), so its
per-tick dispatch state is modelled from the spec text: the set of
targets with an outstanding probe, and the observable counter of skipped
dispatches. -/
structure SchedulerState where
  inflight : List Nat
  skippedChecks : Nat
deriving DecidableEq, Repr

/-- Modelled from the spec: dispatching one probe for a target at a tick
boundary. If a probe for the target is still outstanding the dispatch is
skipped and the skip counter increments; otherwise the probe starts and
the target becomes outstanding. -/
def dispatchProbe (st : SchedulerState) (t : Nat) : SchedulerState :=
  if t ∈ st.inflight then
    { st with skippedChecks := st.skippedChecks + 1 }
  else
    { st with inflight := t :: st.inflight }

/-- Modelled from the spec: a probe completion removes the target from
the outstanding set. -/
def completeProbe (st : SchedulerState) (t : Nat) : SchedulerState :=
  { st with inflight := st.inflight.erase t }

/-- Modelled from the spec: one tick dispatches over the fetched enabled
target list in order. -/
def tickDispatch (st : SchedulerState) (targets : List Nat) :
    SchedulerState :=
  targets.foldl dispatchProbe st

theorem dispatchProbe_nodup (st : SchedulerState) (t : Nat)
    (h : st.inflight.Nodup) : (dispatchProbe st t).inflight.Nodup := by
  unfold dispatchProbe
  by_cases hmem : t ∈ st.inflight
  · simpa [hmem] using h
  · simpa [hmem] using List.nodup_cons.mpr ⟨hmem, h⟩

theorem tickDispatch_nodup (targets : List Nat) (st : SchedulerState)
    (h : st.inflight.Nodup) : (tickDispatch st targets).inflight.Nodup := by
  induction targets generalizing st with
  | nil => simpa [tickDispatch]
  | cons t rest ih =>
    exact ih (dispatchProbe st t) (dispatchProbe_nodup st t h)

/-- C6: the scheduler never has two concurrently outstanding probes for
the same target. When the probed target is already outstanding, the new
dispatch is skipped leaving the outstanding set unchanged and increments
the observable skip counter; when it is not, the probe starts without
touching the counter; and the no-duplicate invariant on the outstanding
set is preserved by a single dispatch, by a whole tick, and by a probe
completion. -/
theorem C6_no_overlapping_probes (st : SchedulerState) (t : Nat)
    (targets : List Nat) (hnodup : st.inflight.Nodup) :
    (t ∈ st.inflight →
      (dispatchProbe st t).inflight = st.inflight ∧
      (dispatchProbe st t).skippedChecks = st.skippedChecks + 1) ∧
    (t ∉ st.inflight →
      (dispatchProbe st t).inflight = t :: st.inflight ∧
      (dispatchProbe st t).skippedChecks = st.skippedChecks) ∧
    (dispatchProbe st t).inflight.Nodup ∧
    (tickDispatch st targets).inflight.Nodup ∧
    (completeProbe st t).inflight.Nodup := by
  refine ⟨?_, ?_, dispatchProbe_nodup st t hnodup,
    tickDispatch_nodup targets st hnodup, ?_⟩
  · intro hmem
    simp [dispatchProbe, hmem]
  · intro hmem
    simp [dispatchProbe, hmem]
  · exact hnodup.erase t

/-- C6 witness: with target 3 outstanding, a tick dispatch for target 3
is skipped (outstanding set unchanged, skip counter up by one). -/
theorem C6_witness :
    (dispatchProbe ⟨[3], 0⟩ 3).inflight = [3] ∧
    (dispatchProbe ⟨[3], 0⟩ 3).skippedChecks = 1 :=
  (C6_no_overlapping_probes ⟨[3], 0⟩ 3 [3, 4] (by decide)).1 (by decide)

/- ===================== result store (spec-modelled) ===================== -/

/-- Modelled from the spec: the Result Store of section 4.4 is not part
of this source tree; append writes one CheckResult timestamp at the end
of the per-target log and leaves every other target unchanged. -/
def appendResult (store : Nat → List Nat) (t : Nat) (ts : Nat) :
    Nat → List Nat :=
  fun target => if target = t then store target ++ [ts] else store target

/-- Modelled from the spec: the single-writer scheduler processes a
trace of probe completions (target, timestamp) in order, appending each
to the store, starting from the empty store. -/
def runSchedulerTrace (events : List (Nat × Nat)) : Nat → List Nat :=
  events.foldl (fun store e => appendResult store e.1 e.2) (fun _ => [])

theorem runSchedulerTrace_foldl_eq (events : List (Nat × Nat))
    (store0 : Nat → List Nat) (T : Nat) :
    events.foldl (fun store e => appendResult store e.1 e.2) store0 T =
      store0 T ++ (events.filter (fun e => e.1 == T)).map Prod.snd := by
  induction events generalizing store0 with
  | nil => simp
  | cons e rest ih =>
    rw [List.foldl_cons, ih]
    by_cases he : e.1 = T
    · have hb : (e.1 == T) = true := by simpa using he
      simp [appendResult, List.filter_cons, hb, he.symm]
    · have hb : (e.1 == T) = false := by simpa using he
      have hne : T ≠ e.1 := fun hcontra => he hcontra.symm
      simp [appendResult, List.filter_cons, hb, hne]

theorem runSchedulerTrace_eq (events : List (Nat × Nat)) (T : Nat) :
    runSchedulerTrace events T =
      (events.filter (fun e => e.1 == T)).map Prod.snd := by
  unfold runSchedulerTrace
  rw [runSchedulerTrace_foldl_eq]
  simp

/-- C7: per-target timestamps are monotone. If the single-writer clock
is non-decreasing along the completion trace, then after every prefix of
the trace (that is, after every append the scheduler performs) the
stored timestamp log of every target is non-decreasing in append
order. -/
theorem C7_timestamps_nondecreasing (events : List (Nat × Nat))
    (hclock : List.Sorted (· ≤ ·) (events.map Prod.snd)) (n : Nat)
    (T : Nat) :
    List.Sorted (· ≤ ·) (runSchedulerTrace (List.take n events) T) := by
  rw [runSchedulerTrace_eq]
  refine List.Pairwise.sublist ?_ hclock
  exact List.Sublist.map Prod.snd
    (((List.take n events).filter_sublist).trans (List.take_sublist n events))

/-- C7 witness: a trace with globally non-decreasing timestamps over two
targets yields a non-decreasing per-target log for target 1 after three
appends. -/
theorem C7_witness :
    List.Sorted (· ≤ ·)
      (runSchedulerTrace (List.take 3 [(1, 0), (2, 1), (1, 3)]) 1) :=
  C7_timestamps_nondecreasing [(1, 0), (2, 1), (1, 3)] (by decide) 3 1
